import Mathlib

/-!
# Verification of the Amazon Connect ↔ Nova Sonic bridge

Shallow embedding of the session-bridge engine: the base64 transport-frame
codec, the continuous-mode media-stream handlers (interruption detection,
audio batching, interruption-flag surfacing), the KVS bridge's session
timeout monitor, cleanup sequence and startup sequence, the inbound
signaling-frame handlers, and the AI-session control sequence.

Byte buffers are `List Nat` with every element `< 256`; times are
milliseconds as `Nat`.
-/

namespace Codec

/-- The standard base64 alphabet used by `Buffer.toString('base64')` /
`Buffer.from(s, 'base64')`. -/
def b64alphabet : List Char :=
  ['A', 'B', 'C', 'D', 'E', 'F', 'G', 'H', 'I', 'J', 'K', 'L', 'M',
   'N', 'O', 'P', 'Q', 'R', 'S', 'T', 'U', 'V', 'W', 'X', 'Y', 'Z',
   'a', 'b', 'c', 'd', 'e', 'f', 'g', 'h', 'i', 'j', 'k', 'l', 'm',
   'n', 'o', 'p', 'q', 'r', 's', 't', 'u', 'v', 'w', 'x', 'y', 'z',
   '0', '1', '2', '3', '4', '5', '6', '7', '8', '9', '+', '/']

/-- The character for a sextet value (0..63). -/
def b64char (n : Nat) : Char := b64alphabet.getD n 'A'

/-- The sextet value of an alphabet character. -/
def b64val (c : Char) : Nat := b64alphabet.indexOf c

/-- `toTransportFrame`: the base64 text encoding applied to a PCM byte
buffer before it is handed to the AI service
(`processAudioChunk`: `audioChunk.toString('base64')`, the resulting text
sent as the audio payload). Bytes are taken three at a time into four
sextet characters, with `=` padding for a 1- or 2-byte tail. -/
def toTransportFrame : List Nat → List Char
  | [] => []
  | [x] => [b64char (x / 4), b64char (x % 4 * 16), '=', '=']
  | [x, y] => [b64char (x / 4), b64char (x % 4 * 16 + y / 16), b64char (y % 16 * 4), '=']
  | x :: y :: z :: rest =>
      b64char (x / 4) :: b64char (x % 4 * 16 + y / 16) ::
        b64char (y % 16 * 4 + z / 64) :: b64char (z % 64) :: toTransportFrame rest

/-- One four-character base64 group decoded back to bytes, honouring `=`
padding (`Buffer.from(base64String, 'base64')`). -/
def decode4 (a b c d : Char) : List Nat :=
  if c = '=' then
    [b64val a * 4 + b64val b / 16]
  else if d = '=' then
    [b64val a * 4 + b64val b / 16, b64val b % 16 * 16 + b64val c / 4]
  else
    [b64val a * 4 + b64val b / 16, b64val b % 16 * 16 + b64val c / 4,
     b64val c % 4 * 64 + b64val d]

/-- `fromTransportFrame`: the base64 text decoding applied to AI audio
output before relay (`sendAudioResponse`: `audioBuffer.toString('utf8')`
then `Buffer.from(base64String, 'base64')`). -/
def fromTransportFrame : List Char → List Nat
  | a :: b :: c :: d :: rest => decode4 a b c d ++ fromTransportFrame rest
  | _ => []

end Codec

/-- `matchAt pat s`: `pat` is a leading run of `s` (character-for-character). -/
def matchAt : List Char → List Char → Bool
  | [], _ => true
  | _ :: _, [] => false
  | p :: ps, c :: cs => p == c && matchAt ps cs

/-- `hasSubstr pat s`: `pat` occurs contiguously somewhere in `s`
(JavaScript `String.prototype.includes`). -/
def hasSubstr (pat : List Char) : List Char → Bool
  | [] => pat.isEmpty
  | c :: cs => matchAt pat (c :: cs) || hasSubstr pat cs

namespace CM

/-! ## Continuous-mode bridge (`src/CONTINUOUS_MODE_IMPROVEMENTS.md`, embedded
`/media-stream` WebSocket handler): per-connection session state and the
Nova Sonic / Amazon Connect event handlers. -/

/-- `const INTERRUPTION_THRESHOLD = 500` (500 ms threshold for interruption
detection). -/
def INTERRUPTION_THRESHOLD : Nat := 500

/-- The per-connection mutable variables of the `/media-stream` closure:
`isAgentSpeaking`, `lastCustomerAudioTime`, `interruptionDetected`,
`sessionInterruptionFlag`. -/
structure SessionState where
  isAgentSpeaking : Bool
  lastCustomerAudioTime : Nat
  interruptionDetected : Bool
  sessionInterruptionFlag : Bool
deriving DecidableEq, Repr

/-- Session state at connection setup: agent not speaking, no interruption
flagged, `lastCustomerAudioTime = Date.now()` at creation time `now`. -/
def initState (now : Nat) : SessionState :=
  { isAgentSpeaking := false
    lastCustomerAudioTime := now
    interruptionDetected := false
    sessionInterruptionFlag := false }

/-- `contentStart` handler: `isAgentSpeaking = true`,
`interruptionDetected = false`. -/
def onContentStart (s : SessionState) : SessionState :=
  { s with isAgentSpeaking := true, interruptionDetected := false }

/-- `contentEnd` handler: `isAgentSpeaking = false`,
`interruptionDetected = false`. -/
def onContentEnd (s : SessionState) : SessionState :=
  { s with isAgentSpeaking := false, interruptionDetected := false }

/-- `textOutput` handler: clears `sessionInterruptionFlag` when it is set
and `data.content.toLowerCase().includes('interrupt')`. -/
def onTextOutput (content : List Char) (s : SessionState) : SessionState :=
  if s.sessionInterruptionFlag &&
      hasSubstr ("interrupt".toList) (content.map Char.toLower) then
    { s with sessionInterruptionFlag := false }
  else s

/-- `error` handler: resets the speaking state. -/
def onErrorEvent (s : SessionState) : SessionState :=
  { s with isAgentSpeaking := false }

/-- `streamComplete` handler: resets the speaking state. -/
def onStreamComplete (s : SessionState) : SessionState :=
  { s with isAgentSpeaking := false }

/-- The interruption-detection block of the `media` case for an inbound
track, transcribed statement by statement: `lastCustomerAudioTime` is first
updated to `Date.now()` (`now`), and the interruption test then computes
`timeSinceAgentStarted = Date.now() - lastCustomerAudioTime` on the already
updated variable. -/
def onInboundAudioActivity (now : Nat) (s : SessionState) : SessionState :=
  let s1 := { s with lastCustomerAudioTime := now }
  if s1.isAgentSpeaking && !s1.interruptionDetected then
    let timeSinceAgentStarted := now - s1.lastCustomerAudioTime
    if timeSinceAgentStarted < INTERRUPTION_THRESHOLD then
      { s1 with interruptionDetected := true, sessionInterruptionFlag := true }
    else s1
  else s1

/-- The Nova Sonic events whose handlers touch the session state, plus the
inbound audio activity of the `media` case (with its arrival time). -/
inductive SessionEvent
  | contentStart
  | contentEnd
  | textOutput (content : List Char)
  | audioOutput
  | errorEvent
  | toolUse
  | toolResult
  | streamComplete
  | inboundAudio (now : Nat)
deriving DecidableEq, Repr

/-- Dispatch of one event to its handler. The `audioOutput`, `toolUse` and
`toolResult` handlers only relay or log and leave the session state
untouched. -/
def stepEvent : SessionEvent → SessionState → SessionState
  | .contentStart => onContentStart
  | .contentEnd => onContentEnd
  | .textOutput content => onTextOutput content
  | .audioOutput => id
  | .errorEvent => onErrorEvent
  | .toolUse => id
  | .toolResult => id
  | .streamComplete => onStreamComplete
  | .inboundAudio now => onInboundAudioActivity now

/-! ### Audio batching of the `media` / `stop` cases -/

/-- The queueing step of the `media` case: push the transcoded PCM frame
onto `audioBufferQueue`; once 3 chunks are queued, concatenate them into
one `session.streamAudio` call and empty the queue. Returns the new queue
and the payloads handed to `streamAudio`. -/
def enqueueFrame (queue : List (List Nat)) (frame : List Nat) :
    List (List Nat) × List (List Nat) :=
  let q := queue ++ [frame]
  if 3 ≤ q.length then ([], [q.flatten]) else (q, [])

/-- Consecutive inbound frames fed through the `media` case. -/
def runFrames (queue : List (List Nat)) : List (List Nat) → List (List Nat) × List (List Nat)
  | [] => (queue, [])
  | f :: fs =>
      let r1 := enqueueFrame queue f
      let r2 := runFrames r1.1 fs
      (r2.1, r1.2 ++ r2.2)

/-- The `stop` case: any remaining queued audio is concatenated into one
final `streamAudio` call. -/
def flushStop (queue : List (List Nat)) : List (List Nat) :=
  if 0 < queue.length then [queue.flatten] else []

/-- The `streamAudio` payloads produced by feeding `frames` through the
`media` case and then the `stop` case. -/
def inboundCalls (frames : List (List Nat)) : List (List Nat) :=
  let r := runFrames [] frames
  r.2 ++ flushStop r.1

/-! ### Inbound frame parsing on the `/media-stream` connection -/

/-- A parsed Amazon Connect message (`data.event`). -/
inductive ConnectMsg
  | connected
  | start
  | media
  | stop
  | other
deriving DecidableEq, Repr

/-- Whether the `/media-stream` message handler closes the connection for
this inbound frame: the `catch` branch for an unparseable frame calls
`connection.close()`; every parsed branch leaves the connection open. -/
def connectionCloses : Option ConnectMsg → Bool
  | none => true
  | some _ => false

end CM

namespace KVS

/-! ## KVS WebRTC bridge (`src/unnamed/part_004`): signaling-frame handling,
session timeout monitoring, cleanup and startup. -/

/-- A parsed KVS signaling message (`message.action`). -/
inductive KvsMessage
  | connectAck
  | offer (sdp : String)
  | answer (sdp : String)
  | iceCandidate (candidate : String)
  | other
deriving DecidableEq, Repr

/-- What the `kvsWebSocket` message handler does with one inbound frame:
an unparseable frame is logged (`KVS_MESSAGE_PARSE_ERROR`) and dropped;
parsed frames dispatch. No branch closes the WebSocket. -/
inductive KvsAction
  | logParseError
  | handleConnectAck
  | handleOffer
  | handleAnswer
  | handleIceCandidate
  | logUnknown
deriving DecidableEq, Repr

/-- The `kvsWebSocket.on('message', ...)` handler body. -/
def kvsOnMessage : Option KvsMessage → KvsAction
  | none => .logParseError
  | some .connectAck => .handleConnectAck
  | some (.offer _) => .handleOffer
  | some (.answer _) => .handleAnswer
  | some (.iceCandidate _) => .handleIceCandidate
  | some .other => .logUnknown

/-- Whether the KVS handler closes the connection for this frame: no
branch, including the parse-error catch, calls close. -/
def kvsCloses : Option KvsMessage → Bool := fun _ => false

end KVS

/-- A read loop over a WebSocket: frames are handled while the connection
is open; a handler that requests close stops processing of later frames.
Returns the number of frames handled and whether the connection is still
open. -/
def runConnection (closes : α → Bool) : List α → Nat × Bool
  | [] => (0, true)
  | f :: fs =>
      if closes f then (1, false)
      else
        let r := runConnection closes fs
        (r.1 + 1, r.2)

namespace KVS

/-! ### Session timeout monitoring -/

/-- `const SESSION_TIMEOUT_MS = 60000` (60 seconds). -/
def SESSION_TIMEOUT_MS : Nat := 60000

/-- `resetSessionTimeout`: clears the pending timer and re-arms it at the
current time (the fire deadline becomes `now + SESSION_TIMEOUT_MS`). -/
def resetSessionTimeout (now : Nat) (_armedAt : Nat) : Nat := now

/-- The moment an armed timer fires if it is not reset before then. -/
def fireTime (armedAt : Nat) : Nat := armedAt + SESSION_TIMEOUT_MS

/-- The Nova Sonic events delivered to the part_004 handlers. An
`audioOutput` payload is its base64 content. -/
inductive NovaEvent
  | sessionStart
  | contentStart
  | contentEnd
  | textOutput (content : List Char)
  | audioOutput (content : List Char)
  | toolUse
  | toolEnd
  | toolResult
  | errorEvent
  | streamComplete
deriving DecidableEq, Repr

/-- Whether the part_004 handler for this event calls
`resetSessionTimeout`: the `textOutput` handler always does; the
`audioOutput` handler returns early (no reset) when the content is empty
or decodes to an empty buffer; no other handler resets. -/
def handlerResetsTimeout : NovaEvent → Bool
  | .textOutput _ => true
  | .audioOutput content =>
      !content.isEmpty && !(Codec.fromTransportFrame content).isEmpty
  | _ => false

/-- The armed time of the session timer after a list of timestamped Nova
Sonic events. -/
def runTimerAux (armedAt : Nat) : List (Nat × NovaEvent) → Nat
  | [] => armedAt
  | (t, e) :: rest =>
      runTimerAux (if handlerResetsTimeout e then resetSessionTimeout t armedAt else armedAt) rest

/-- What the supervisor does, in order. -/
inductive SupervisorAction
  | logActivity (tag : String)
  | runCleanup
  | exitProcess (code : Nat)
deriving DecidableEq, Repr

/-- The `setTimeout` callback armed by `startSessionTimeoutMonitoring` /
`resetSessionTimeout`: log `SESSION_TIMEOUT`, `await cleanup()`, then
`process.exit(0)`. -/
def onSessionTimeout : List SupervisorAction :=
  [.logActivity "SESSION_TIMEOUT", .runCleanup, .exitProcess 0]

/-! ### Cleanup sequence -/

/-- The externally visible steps of part_004 `cleanup()`. -/
inductive CleanupStep
  | clearSessionTimeout
  | logCallStatistics
  | callEndAudioContent
  | callEndPrompt
  | callCloseSession
  | logNovaCloseError
  | removeAudioTrack
  | closePeerConnection
  | closeKvsWebSocket
  | emitCallSummary
  | logCleanupCompleted
deriving DecidableEq, BEq, Repr

/-- Which resources exist when `cleanup()` runs, and which of the three
Nova Sonic teardown calls throw. -/
structure CleanupEnv where
  hasNovaSession : Bool
  hasPeerConnection : Bool
  hasAudioSender : Bool
  hasKvsWebSocket : Bool
  endAudioContentFails : Bool
  endPromptFails : Bool
  closeSessionFails : Bool
deriving DecidableEq, Repr

/-- The `try { endAudioContent; endPrompt; close } catch { log }` block of
`cleanup()`: one catch wraps all three calls, so the first failure logs the
error and the remaining Nova Sonic teardown calls are not attempted. -/
def novaTeardown (env : CleanupEnv) : List CleanupStep :=
  if env.endAudioContentFails then
    [.callEndAudioContent, .logNovaCloseError]
  else if env.endPromptFails then
    [.callEndAudioContent, .callEndPrompt, .logNovaCloseError]
  else if env.closeSessionFails then
    [.callEndAudioContent, .callEndPrompt, .callCloseSession, .logNovaCloseError]
  else
    [.callEndAudioContent, .callEndPrompt, .callCloseSession]

/-- The WebRTC teardown block of `cleanup()`: remove the audio sender if
present, then `peerConnection.close()`. -/
def webrtcTeardown (env : CleanupEnv) : List CleanupStep :=
  (if env.hasAudioSender then [.removeAudioTrack] else []) ++ [.closePeerConnection]

/-- part_004 `cleanup()` as the ordered trace of its steps: clear the
timer, log statistics, tear down the Nova Sonic session (guarded as a
group), close the WebRTC peer connection, close the KVS WebSocket, then
log the final `CALL SUMMARY` (duration and counts) and
`CLEANUP_COMPLETED`. Every fallible step sits inside a try/catch (the Nova
Sonic group inside its own, the body inside an outer one), so the function
always returns and never propagates an error. There is no guard flag: each
invocation runs the whole sequence again. -/
def cleanup (env : CleanupEnv) : List CleanupStep :=
  [.clearSessionTimeout, .logCallStatistics] ++
  (if env.hasNovaSession then novaTeardown env else []) ++
  (if env.hasPeerConnection then webrtcTeardown env else []) ++
  (if env.hasKvsWebSocket then [.closeKvsWebSocket] else []) ++
  [.emitCallSummary, .logCleanupCompleted]

/-- Two invocations of `cleanup()` (for example from the idle timer and an
explicit stop): the traces simply concatenate, there is no idempotence
guard. -/
def doubleCleanup (env1 env2 : CleanupEnv) : List CleanupStep :=
  cleanup env1 ++ cleanup env2

/-! ### Startup sequence -/

/-- The process environment and the outcomes of the external calls made
during startup. -/
structure StartupEnv where
  streamArn : Option String
  clientInitOk : Bool
  sessionInitOk : Bool
  kvsNetworkOk : Bool
deriving Repr

/-- Outcome of `startServer()`: either the bridge is up (health server
listening, bridging state) or the process exited with a code. -/
inductive StartupOutcome
  | serverStarted
  | exitedWith (code : Nat)
deriving DecidableEq, Repr

/-- `connectToKVSSignalingChannel`: throws
`'STREAM_ARN environment variable is required'` when `STREAM_ARN` is
absent; otherwise succeeds or fails with the network. -/
def connectToKVSSignalingChannel (env : StartupEnv) : Except String Unit :=
  match env.streamArn with
  | none => .error "STREAM_ARN environment variable is required"
  | some _ => if env.kvsNetworkOk then .ok () else .error "KVS connection failed"

/-- `startServer()`: client init, session init, KVS signaling connect in
order; any thrown error reaches the catch, which logs
`SERVER_START_FAILED` and calls `process.exit(1)`. -/
def startServer (env : StartupEnv) : StartupOutcome :=
  if !env.clientInitOk then .exitedWith 1
  else if !env.sessionInitOk then .exitedWith 1
  else
    match connectToKVSSignalingChannel env with
    | .ok _ => .serverStarted
    | .error _ => .exitedWith 1

end KVS

namespace AISession

/-! ## AI Session control sequence -/

/-- Modelled from the spec: the AI Session state machine of §3 / §4.4
(`Uninitialized → SessionStarted → PromptStarted → SystemPromptDelivered →
AudioContentOpen → (streaming) → AudioContentClosed → PromptClosed →
SessionClosed`). The nova-client `StreamSession` that implements the
control calls is not under `src/` — only its callers are — so the strict
progression is taken from the spec's words. -/
inductive AIState
  | uninit
  | sessionStarted
  | promptStarted
  | systemPromptDelivered
  | audioContentOpen
  | audioContentClosed
  | promptClosed
  | sessionClosed
deriving DecidableEq, Repr

/-- Modelled from the spec: the AI Session control calls of §4.4. -/
inductive AIOp
  | start
  | beginPrompt
  | deliverSystemInstructions
  | openAudioContent
  | streamAudio
  | closeAudioContent
  | closePrompt
  | closeSession
deriving DecidableEq, Repr

/-- Modelled from the spec: the error taxonomy entry for an out-of-order
control call (§7). -/
inductive AIErr
  | protocolSequenceError
deriving DecidableEq, Repr

/-- Modelled from the spec: the unique state from which each control call
is legal (§4.4 steps 1–6; `streamAudio` keeps the audio content open). -/
def requiredState : AIOp → AIState
  | .start => .uninit
  | .beginPrompt => .sessionStarted
  | .deliverSystemInstructions => .promptStarted
  | .openAudioContent => .systemPromptDelivered
  | .streamAudio => .audioContentOpen
  | .closeAudioContent => .audioContentOpen
  | .closePrompt => .audioContentClosed
  | .closeSession => .promptClosed

/-- Modelled from the spec: one control call. Out-of-order or skipped
calls fail fast with `ProtocolSequenceError`; `close()` after `close()` is
a no-op that does not raise (§8). -/
def step : AIOp → AIState → Except AIErr AIState
  | .start, .uninit => .ok .sessionStarted
  | .beginPrompt, .sessionStarted => .ok .promptStarted
  | .deliverSystemInstructions, .promptStarted => .ok .systemPromptDelivered
  | .openAudioContent, .systemPromptDelivered => .ok .audioContentOpen
  | .streamAudio, .audioContentOpen => .ok .audioContentOpen
  | .closeAudioContent, .audioContentOpen => .ok .audioContentClosed
  | .closePrompt, .audioContentClosed => .ok .promptClosed
  | .closeSession, .promptClosed => .ok .sessionClosed
  | .closeSession, .sessionClosed => .ok .sessionClosed
  | _, _ => .error .protocolSequenceError

end AISession

/-! ## Theorems -/

/-- The alphabet inverts its own indexing on sextet values. -/
theorem b64val_b64char : ∀ n : Nat, n < 64 → Codec.b64val (Codec.b64char n) = n := by
  decide

/-- No sextet character is the padding character. -/
theorem b64char_ne_pad : ∀ n : Nat, n < 64 → Codec.b64char n ≠ '=' := by
  decide

/-- Decoding inverts encoding on byte buffers. -/
theorem fromTransportFrame_toTransportFrame (l : List Nat) :
    (∀ x ∈ l, x < 256) → Codec.fromTransportFrame (Codec.toTransportFrame l) = l := by
  induction l using Codec.toTransportFrame.induct with
  | case1 =>
      intro _
      rfl
  | case2 x =>
      intro h
      have hx : x < 256 := h x (by simp)
      simp only [Codec.toTransportFrame, Codec.fromTransportFrame, Codec.decode4, if_pos rfl,
        b64val_b64char (x / 4) (by omega), b64val_b64char (x % 4 * 16) (by omega)]
      simp only [if_true, List.append_nil, List.cons.injEq, and_true]
      omega
  | case3 x y =>
      intro h
      have hx : x < 256 := h x (by simp)
      have hy : y < 256 := h y (by simp)
      simp only [Codec.toTransportFrame, Codec.fromTransportFrame, Codec.decode4,
        if_neg (b64char_ne_pad (y % 16 * 4) (by omega)), if_pos rfl,
        b64val_b64char (x / 4) (by omega), b64val_b64char (x % 4 * 16 + y / 16) (by omega),
        b64val_b64char (y % 16 * 4) (by omega)]
      simp only [if_true, List.append_nil, List.cons.injEq, and_true]
      omega
  | case4 x y z rest ih =>
      intro h
      have hx : x < 256 := h x (by simp)
      have hy : y < 256 := h y (by simp)
      have hz : z < 256 := h z (by simp)
      have hrest : ∀ w ∈ rest, w < 256 := fun w hw => h w (by simp [hw])
      simp only [Codec.toTransportFrame, Codec.fromTransportFrame, Codec.decode4,
        if_neg (b64char_ne_pad (y % 16 * 4 + z / 64) (by omega)),
        if_neg (b64char_ne_pad (z % 64) (by omega)),
        b64val_b64char (x / 4) (by omega), b64val_b64char (x % 4 * 16 + y / 16) (by omega),
        b64val_b64char (y % 16 * 4 + z / 64) (by omega), b64val_b64char (z % 64) (by omega)]
      rw [ih hrest]
      simp only [List.cons_append, List.nil_append, List.cons.injEq, and_true, true_and]
      refine ⟨by omega, by omega, by omega⟩

/-- C3: for every PCM byte buffer `b` whose length is a multiple of 2,
decoding the transport frame produced from `b` returns exactly `b`:
`fromTransportFrame (toTransportFrame b) = b`. -/
theorem c3_transport_frame_roundtrip (b : List Nat)
    (hbytes : ∀ x ∈ b, x < 256) (_hlen : b.length % 2 = 0) :
    Codec.fromTransportFrame (Codec.toTransportFrame b) = b :=
  fromTransportFrame_toTransportFrame b hbytes

/-- C3 witness: the round trip at the concrete 4-byte PCM buffer
`[0, 255, 16, 130]`. -/
theorem c3_transport_frame_roundtrip_witness :
    Codec.fromTransportFrame (Codec.toTransportFrame [0, 255, 16, 130]) = [0, 255, 16, 130] :=
  c3_transport_frame_roundtrip [0, 255, 16, 130] (by decide) (by decide)

/-- C1: at the failing input — `contentStart` at time 0 (the agent starts
speaking, no interruption flagged), then inbound audio activity at time
800, i.e. 800 ms later with the default 500 ms threshold — the media
handler sets both `interruptionDetected` and `sessionInterruptionFlag`,
because `timeSinceAgentStarted` is computed as
`Date.now() - lastCustomerAudioTime` right after `lastCustomerAudioTime`
was set to `Date.now()`, so the compared gap is 0 regardless of when the
agent began speaking. The claim says activity 800 ms after `contentStart`
never sets the flag. -/
theorem c1_interruption_set_800ms_after_contentStart :
    (CM.onInboundAudioActivity 800 (CM.onContentStart (CM.initState 0))).interruptionDetected
      = true ∧
    (CM.onInboundAudioActivity 800 (CM.onContentStart (CM.initState 0))).sessionInterruptionFlag
      = true := by
  decide

/-- Inbound audio activity never clears `sessionInterruptionFlag`. -/
theorem onInboundAudioActivity_flag_mono (now : Nat) (s : CM.SessionState)
    (h : s.sessionInterruptionFlag = true) :
    (CM.onInboundAudioActivity now s).sessionInterruptionFlag = true := by
  simp only [CM.onInboundAudioActivity]
  split
  · split
    · rfl
    · exact h
  · exact h

/-- C10: `sessionInterruptionFlag` is cleared only by a `textOutput` event
whose content contains the substring "interrupt" case-insensitively;
`contentStart` and `contentEnd` reset only `interruptionDetected` and
leave `sessionInterruptionFlag` unchanged, so the surfaced flag can
persist across agent content blocks. -/
theorem c10_sessionInterruptionFlag_cleared_only_by_interrupt_text :
    (∀ s : CM.SessionState,
      (CM.onContentStart s).sessionInterruptionFlag = s.sessionInterruptionFlag ∧
      (CM.onContentEnd s).sessionInterruptionFlag = s.sessionInterruptionFlag ∧
      (CM.onContentStart s).interruptionDetected = false ∧
      (CM.onContentEnd s).interruptionDetected = false) ∧
    (∀ (e : CM.SessionEvent) (s : CM.SessionState),
      s.sessionInterruptionFlag = true →
      (CM.stepEvent e s).sessionInterruptionFlag = false →
      ∃ content, e = CM.SessionEvent.textOutput content ∧
        hasSubstr ("interrupt".toList) (content.map Char.toLower) = true) := by
  constructor
  · intro s
    exact ⟨rfl, rfl, rfl, rfl⟩
  · intro e s hflag hclear
    cases e with
    | contentStart => rw [CM.stepEvent, CM.onContentStart] at hclear; rw [hflag] at hclear; cases hclear
    | contentEnd => rw [CM.stepEvent, CM.onContentEnd] at hclear; rw [hflag] at hclear; cases hclear
    | textOutput content =>
        refine ⟨content, rfl, ?_⟩
        rw [CM.stepEvent, CM.onTextOutput] at hclear
        by_cases hc : hasSubstr ("interrupt".toList) (content.map Char.toLower) = true
        · exact hc
        · rw [hflag, Bool.true_and, if_neg hc] at hclear
          rw [hflag] at hclear
          cases hclear
    | audioOutput => rw [CM.stepEvent, id] at hclear; rw [hflag] at hclear; cases hclear
    | errorEvent => rw [CM.stepEvent, CM.onErrorEvent] at hclear; rw [hflag] at hclear; cases hclear
    | toolUse => rw [CM.stepEvent, id] at hclear; rw [hflag] at hclear; cases hclear
    | toolResult => rw [CM.stepEvent, id] at hclear; rw [hflag] at hclear; cases hclear
    | streamComplete => rw [CM.stepEvent, CM.onStreamComplete] at hclear; rw [hflag] at hclear; cases hclear
    | inboundAudio now =>
        rw [CM.stepEvent] at hclear
        rw [onInboundAudioActivity_flag_mono now s hflag] at hclear
        cases hclear

/-- C10 witness: a flagged session and the concrete text output
"Let me address your concern about the INTERRUPT" (which, lowercased,
contains "interrupt") clears the flag, and the theorem recovers the
witnessing content. -/
theorem c10_sessionInterruptionFlag_witness :
    ∃ content,
      CM.SessionEvent.textOutput ("Let me address your concern about the INTERRUPT".toList)
        = CM.SessionEvent.textOutput content ∧
      hasSubstr ("interrupt".toList) (content.map Char.toLower) = true :=
  c10_sessionInterruptionFlag_cleared_only_by_interrupt_text.2
    (CM.SessionEvent.textOutput ("Let me address your concern about the INTERRUPT".toList))
    { isAgentSpeaking := true, lastCustomerAudioTime := 0,
      interruptionDetected := true, sessionInterruptionFlag := true }
    (by decide) (by decide)

/-- Bytes are conserved by the 3-chunk batching: the bytes already sent
plus the bytes still queued are exactly the initial queue plus all frames
fed in, in order. -/
theorem runFrames_bytes (fs : List (List Nat)) :
    ∀ q, ((CM.runFrames q fs).2).flatten ++ ((CM.runFrames q fs).1).flatten
      = q.flatten ++ fs.flatten := by
  induction fs with
  | nil => intro q; simp [CM.runFrames]
  | cons f fs ih =>
      intro q
      by_cases h3 : 3 ≤ (q ++ [f]).length
      · simp only [CM.runFrames, CM.enqueueFrame, if_pos h3, List.flatten_cons,
          List.cons_append, List.nil_append, List.append_assoc]
        rw [ih []]
        simp [List.flatten_append, List.append_assoc]
      · simp only [CM.runFrames, CM.enqueueFrame, if_neg h3, List.nil_append]
        rw [ih (q ++ [f])]
        simp [List.flatten_append, List.append_assoc]

/-- Batching counts: with fewer than 3 chunks queued, after `n` more
frames the number of `streamAudio` calls made is `(queued + n) / 3` and
the queue holds `(queued + n) % 3` chunks. -/
theorem runFrames_counts (fs : List (List Nat)) :
    ∀ q : List (List Nat), q.length ≤ 2 →
      (CM.runFrames q fs).2.length = (q.length + fs.length) / 3 ∧
      (CM.runFrames q fs).1.length = (q.length + fs.length) % 3 := by
  induction fs with
  | nil =>
      intro q hq
      constructor <;> simp [CM.runFrames] <;> omega
  | cons f fs ih =>
      intro q hq
      by_cases h3 : 3 ≤ (q ++ [f]).length
      · have hq2 : q.length = 2 := by
          simp only [List.length_append, List.length_cons, List.length_nil] at h3
          omega
        obtain ⟨h1, h2⟩ := ih [] (by simp)
        simp only [CM.runFrames, CM.enqueueFrame, if_pos h3, List.cons_append,
          List.nil_append, List.length_cons]
        constructor
        · simp only [List.length_cons, h1]
          simp only [List.length_nil]
          omega
        · simp only [h2, List.length_nil]
          omega
      · have hlt : q.length + 1 ≤ 2 := by
          simp only [List.length_append, List.length_cons, List.length_nil] at h3
          omega
        obtain ⟨h1, h2⟩ := ih (q ++ [f]) (by simp; omega)
        simp only [CM.runFrames, CM.enqueueFrame, if_neg h3, List.nil_append, List.length_cons]
        simp only [List.length_append, List.length_cons, List.length_nil] at h1 h2
        constructor
        · rw [h1]; omega
        · rw [h2]; omega

/-- The `stop` flush conserves the queued bytes. -/
theorem flushStop_flatten (q : List (List Nat)) :
    (CM.flushStop q).flatten = q.flatten := by
  unfold CM.flushStop
  split
  · simp
  · rename_i h
    have : q = [] := List.length_eq_zero.mp (by omega)
    subst this
    rfl

/-- The `stop` flush makes at most one `streamAudio` call. -/
theorem flushStop_length (q : List (List Nat)) : (CM.flushStop q).length ≤ 1 := by
  unfold CM.flushStop
  split <;> simp

/-- The inbound path delivers exactly the concatenation of the input
frames, in order. -/
theorem inboundCalls_bytes (frames : List (List Nat)) :
    (CM.inboundCalls frames).flatten = frames.flatten := by
  unfold CM.inboundCalls
  simp only [List.flatten_append, flushStop_flatten]
  have h := runFrames_bytes frames []
  simpa using h

/-- C9: pushing 10 consecutive transcoded PCM frames through the inbound
path (the `media` case, then the `stop` flush) produces at most 10 calls
into `streamAudio`, and the concatenation of all bytes delivered is
byte-identical to the concatenation of the 10 input frames. -/
theorem c9_batching_preserves_bytes (frames : List (List Nat))
    (hlen : frames.length = 10) :
    (CM.inboundCalls frames).length ≤ 10 ∧
    (CM.inboundCalls frames).flatten = frames.flatten := by
  refine ⟨?_, inboundCalls_bytes frames⟩
  unfold CM.inboundCalls
  obtain ⟨h1, _⟩ := runFrames_counts frames [] (by simp)
  have h2 := flushStop_length (CM.runFrames [] frames).1
  simp only [List.length_nil, hlen] at h1
  simp only [List.length_append, h1]
  omega

/-- C9 witness: ten concrete one-byte frames go out as four batched calls
whose payloads concatenate to the original ten bytes. -/
theorem c9_batching_preserves_bytes_witness :
    (CM.inboundCalls [[0], [1], [2], [3], [4], [5], [6], [7], [8], [9]]).length ≤ 10 ∧
    (CM.inboundCalls [[0], [1], [2], [3], [4], [5], [6], [7], [8], [9]]).flatten
      = ([[0], [1], [2], [3], [4], [5], [6], [7], [8], [9]] : List (List Nat)).flatten :=
  c9_batching_preserves_bytes [[0], [1], [2], [3], [4], [5], [6], [7], [8], [9]] (by decide)

/-- C4 counterexample: an `audioOutput` AI response event whose content is
empty does not reset the idle timer — the handler returns before
`resetSessionTimeout` — so a timer armed at time 0 is still armed at 0
after such an event at time 59000 (a reset would have re-armed it at
59000). The claim says the idle timer is reset on every AI response
event. -/
theorem c4_empty_audioOutput_does_not_reset :
    KVS.runTimerAux 0 [(59000, KVS.NovaEvent.audioOutput [])] = 0 ∧
    KVS.runTimerAux 0 [(59000, KVS.NovaEvent.audioOutput [])] ≠ 59000 := by
  decide

/-- An event that is neither a `textOutput` nor an `audioOutput` never
resets the session timer. -/
theorem handlerResets_false_of_not_response (e : KVS.NovaEvent)
    (h1 : ∀ c, e ≠ KVS.NovaEvent.textOutput c)
    (h2 : ∀ c, e ≠ KVS.NovaEvent.audioOutput c) :
    KVS.handlerResetsTimeout e = false := by
  cases e <;> first | rfl | (exact absurd rfl (h1 _)) | (exact absurd rfl (h2 _))

/-- A run of non-resetting events leaves the timer armed where it was. -/
theorem runTimerAux_no_reset (events : List (Nat × KVS.NovaEvent)) :
    ∀ a, (∀ te ∈ events, KVS.handlerResetsTimeout te.2 = false) →
      KVS.runTimerAux a events = a := by
  induction events with
  | nil => intro a _; rfl
  | cons te rest ih =>
      intro a h
      obtain ⟨t, e⟩ := te
      have he : KVS.handlerResetsTimeout e = false := h (t, e) (by simp)
      simp only [KVS.runTimerAux, he, Bool.false_eq_true, if_false]
      exact ih a fun x hx => h x (by simp [hx])

/-- C4 (amended): given an AI Session that emits no response event after
monitoring starts, the supervisor's idle timer fires exactly
`SESSION_TIMEOUT_MS` (60 s) after the last arming — hence within
`idleThreshold + ε` and never before `idleThreshold − ε` for every `ε` —
and on firing it logs the timeout, performs cleanup, then terminates the
process. The timer is reset on every `textOutput` event and on every
`audioOutput` event whose payload is nonempty and decodes to a nonempty
buffer (an `audioOutput` with empty or invalid payload does not reset
it). -/
theorem c4_idle_timeout_amended (t0 : Nat) (events : List (Nat × KVS.NovaEvent))
    (hnores : ∀ te ∈ events,
      (∀ c, te.2 ≠ KVS.NovaEvent.textOutput c) ∧
      (∀ c, te.2 ≠ KVS.NovaEvent.audioOutput c))
    (ε : Nat) :
    KVS.fireTime (KVS.runTimerAux t0 events) = t0 + KVS.SESSION_TIMEOUT_MS ∧
    KVS.fireTime (KVS.runTimerAux t0 events) - t0 ≤ KVS.SESSION_TIMEOUT_MS + ε ∧
    KVS.SESSION_TIMEOUT_MS - ε ≤ KVS.fireTime (KVS.runTimerAux t0 events) - t0 ∧
    (∀ t a c, KVS.runTimerAux a [(t, KVS.NovaEvent.textOutput c)] = t) ∧
    (∀ t a c, c ≠ [] → Codec.fromTransportFrame c ≠ [] →
      KVS.runTimerAux a [(t, KVS.NovaEvent.audioOutput c)] = t) ∧
    KVS.onSessionTimeout
      = [KVS.SupervisorAction.logActivity "SESSION_TIMEOUT",
         KVS.SupervisorAction.runCleanup,
         KVS.SupervisorAction.exitProcess 0] := by
  have harm : KVS.runTimerAux t0 events = t0 :=
    runTimerAux_no_reset events t0 fun te hte =>
      handlerResets_false_of_not_response te.2 (hnores te hte).1 (hnores te hte).2
  rw [harm]
  refine ⟨rfl, by unfold KVS.fireTime; omega, by unfold KVS.fireTime; omega, ?_, ?_, rfl⟩
  · intro t a c
    simp [KVS.runTimerAux, KVS.handlerResetsTimeout, KVS.resetSessionTimeout]
  · intro t a c hc hdec
    simp [KVS.runTimerAux, KVS.handlerResetsTimeout, KVS.resetSessionTimeout,
      List.isEmpty_iff, hc, hdec]

/-- C4 witness: with the timer armed at time 5 and a single non-response
event (`contentStart` at time 20), the fire time is exactly 5 + 60000. -/
theorem c4_idle_timeout_amended_witness :
    KVS.fireTime (KVS.runTimerAux 5 [(20, KVS.NovaEvent.contentStart)])
      = 5 + KVS.SESSION_TIMEOUT_MS :=
  (c4_idle_timeout_amended 5 [(20, KVS.NovaEvent.contentStart)]
    (by
      intro te hte
      simp only [List.mem_singleton] at hte
      subst hte
      exact ⟨fun c h => KVS.NovaEvent.noConfusion h, fun c h => KVS.NovaEvent.noConfusion h⟩)
    0).1

/-- C5 counterexample: when `endAudioContent` throws during cleanup (all
resources present), `closePrompt` and `close` are never attempted — the
single catch around the three Nova Sonic teardown calls aborts the rest of
the group — contradicting the claim that each of the three AI-session
steps is individually best-effort. -/
theorem c5_cleanup_skips_rest_of_group_on_failure :
    KVS.CleanupStep.callEndPrompt ∉
      KVS.cleanup { hasNovaSession := true, hasPeerConnection := true,
                    hasAudioSender := true, hasKvsWebSocket := true,
                    endAudioContentFails := true, endPromptFails := false,
                    closeSessionFails := false } ∧
    KVS.CleanupStep.callCloseSession ∉
      KVS.cleanup { hasNovaSession := true, hasPeerConnection := true,
                    hasAudioSender := true, hasKvsWebSocket := true,
                    endAudioContentFails := true, endPromptFails := false,
                    closeSessionFails := false } := by
  constructor <;>
    · intro h
      simp [KVS.cleanup, KVS.novaTeardown, KVS.webrtcTeardown] at h

/-- C5 (amended): on a terminal condition the cleanup sequence runs
`closeAudioContent`, `closePrompt`, `close` on the AI Session in that
order as a group under a single error guard — a failure in one logs the
error and skips the remaining AI-session steps — and then, regardless,
closes the media (WebRTC) session, closes the signaling (KVS WebSocket)
client, and emits the final activity record with call duration and counts
(no explicit stop-accepting-inbound-frames step precedes the AI-session
teardown). -/
theorem c5_cleanup_order_amended (env : KVS.CleanupEnv)
    (hn : env.hasNovaSession = true) (hp : env.hasPeerConnection = true)
    (ha : env.hasAudioSender = true) (hk : env.hasKvsWebSocket = true) :
    (env.endAudioContentFails = false → env.endPromptFails = false →
      env.closeSessionFails = false →
      KVS.cleanup env =
        [KVS.CleanupStep.clearSessionTimeout, KVS.CleanupStep.logCallStatistics,
         KVS.CleanupStep.callEndAudioContent, KVS.CleanupStep.callEndPrompt,
         KVS.CleanupStep.callCloseSession,
         KVS.CleanupStep.removeAudioTrack, KVS.CleanupStep.closePeerConnection,
         KVS.CleanupStep.closeKvsWebSocket,
         KVS.CleanupStep.emitCallSummary, KVS.CleanupStep.logCleanupCompleted]) ∧
    (env.endAudioContentFails = true →
      KVS.cleanup env =
        [KVS.CleanupStep.clearSessionTimeout, KVS.CleanupStep.logCallStatistics,
         KVS.CleanupStep.callEndAudioContent, KVS.CleanupStep.logNovaCloseError,
         KVS.CleanupStep.removeAudioTrack, KVS.CleanupStep.closePeerConnection,
         KVS.CleanupStep.closeKvsWebSocket,
         KVS.CleanupStep.emitCallSummary, KVS.CleanupStep.logCleanupCompleted]) := by
  constructor
  · intro h1 h2 h3
    simp [KVS.cleanup, KVS.novaTeardown, KVS.webrtcTeardown, hn, hp, ha, hk, h1, h2, h3]
  · intro h1
    simp [KVS.cleanup, KVS.novaTeardown, KVS.webrtcTeardown, hn, hp, ha, hk, h1]

/-- C5 witness: the failure-free cleanup of a fully connected call is the
exact ordered trace. -/
theorem c5_cleanup_order_amended_witness :
    KVS.cleanup { hasNovaSession := true, hasPeerConnection := true,
                  hasAudioSender := true, hasKvsWebSocket := true,
                  endAudioContentFails := false, endPromptFails := false,
                  closeSessionFails := false } =
      [KVS.CleanupStep.clearSessionTimeout, KVS.CleanupStep.logCallStatistics,
       KVS.CleanupStep.callEndAudioContent, KVS.CleanupStep.callEndPrompt,
       KVS.CleanupStep.callCloseSession,
       KVS.CleanupStep.removeAudioTrack, KVS.CleanupStep.closePeerConnection,
       KVS.CleanupStep.closeKvsWebSocket,
       KVS.CleanupStep.emitCallSummary, KVS.CleanupStep.logCleanupCompleted] :=
  (c5_cleanup_order_amended
    { hasNovaSession := true, hasPeerConnection := true,
      hasAudioSender := true, hasKvsWebSocket := true,
      endAudioContentFails := false, endPromptFails := false,
      closeSessionFails := false } rfl rfl rfl rfl).1 rfl rfl rfl

/-- Every single `cleanup()` invocation emits the final call summary
exactly once. -/
theorem cleanup_count_summary (env : KVS.CleanupEnv) :
    (KVS.cleanup env).count KVS.CleanupStep.emitCallSummary = 1 := by
  obtain ⟨a, b, c, d, e, f, g⟩ := env
  cases a <;> cases b <;> cases c <;> cases d <;> cases e <;> cases f <;> cases g <;> rfl

/-- Every single `cleanup()` invocation runs to its end (the body and the
Nova Sonic group are each wrapped in a catch, so no step failure
propagates): the last step is always the `CLEANUP_COMPLETED` log. -/
theorem cleanup_runs_to_completion (env : KVS.CleanupEnv) :
    (KVS.cleanup env).getLast? = some KVS.CleanupStep.logCleanupCompleted := by
  obtain ⟨a, b, c, d, e, f, g⟩ := env
  cases a <;> cases b <;> cases c <;> cases d <;> cases e <;> cases f <;> cases g <;> rfl

/-- C6 counterexample: triggering cleanup twice — first invocation clean,
second invocation with the Nova Sonic calls failing because the session is
already closed — emits the final call summary twice, contradicting the
claim that a duplicate invocation does not emit a second final call
summary. -/
theorem c6_double_cleanup_emits_two_summaries :
    (KVS.doubleCleanup
        { hasNovaSession := true, hasPeerConnection := true,
          hasAudioSender := true, hasKvsWebSocket := true,
          endAudioContentFails := false, endPromptFails := false,
          closeSessionFails := false }
        { hasNovaSession := true, hasPeerConnection := true,
          hasAudioSender := false, hasKvsWebSocket := true,
          endAudioContentFails := true, endPromptFails := false,
          closeSessionFails := false }).count KVS.CleanupStep.emitCallSummary = 2 := by
  decide

/-- C6 (amended): a duplicate cleanup invocation does not throw — every
invocation, whatever fails, runs to completion with failures only logged —
but cleanup is not guarded by an in-progress/done flag: the second
invocation re-runs the whole close sequence and emits a second final call
summary, so the final summary is emitted once per invocation rather than
at most once per call. -/
theorem c6_cleanup_not_idempotent_amended (env1 env2 : KVS.CleanupEnv) :
    (KVS.doubleCleanup env1 env2).count KVS.CleanupStep.emitCallSummary = 2 ∧
    (KVS.cleanup env2).getLast? = some KVS.CleanupStep.logCleanupCompleted := by
  refine ⟨?_, cleanup_runs_to_completion env2⟩
  unfold KVS.doubleCleanup
  rw [List.count_append, cleanup_count_summary env1, cleanup_count_summary env2]

/-- C7: if `STREAM_ARN` is absent from the process environment, startup
fails fatally — whatever the other startup steps would have done, the
process exits with code 1 and the bridge never reaches the started
state. -/
theorem c7_missing_stream_arn_is_fatal (env : KVS.StartupEnv)
    (h : env.streamArn = none) :
    KVS.startServer env = KVS.StartupOutcome.exitedWith 1 ∧
    KVS.startServer env ≠ KVS.StartupOutcome.serverStarted := by
  have hout : KVS.startServer env = KVS.StartupOutcome.exitedWith 1 := by
    unfold KVS.startServer KVS.connectToKVSSignalingChannel
    rw [h]
    cases env.clientInitOk <;> cases env.sessionInitOk <;> rfl
  exact ⟨hout, by rw [hout]; intro hc; cases hc⟩

/-- C7 witness: the environment with no `STREAM_ARN` and every external
call succeeding still exits with code 1. -/
theorem c7_missing_stream_arn_is_fatal_witness :
    KVS.startServer { streamArn := none, clientInitOk := true,
                      sessionInitOk := true, kvsNetworkOk := true }
      = KVS.StartupOutcome.exitedWith 1 :=
  (c7_missing_stream_arn_is_fatal
    { streamArn := none, clientInitOk := true,
      sessionInitOk := true, kvsNetworkOk := true } rfl).1

/-- C8 counterexample: on the continuous-mode `/media-stream` connection, a
frame that fails to parse closes the connection (`connection.close()` in
the catch), so of the two frames `[unparseable, connected]` only the first
is handled and the connection ends closed — contradicting the claim that a
parse failure drops only that frame, with the connection staying open and
subsequent frames still processed. -/
theorem c8_continuous_parse_failure_closes_connection :
    (runConnection CM.connectionCloses [none, some CM.ConnectMsg.connected]).2 = false ∧
    (runConnection CM.connectionCloses [none, some CM.ConnectMsg.connected]).1 = 1 := by
  decide

/-- A read loop whose handler never requests close handles every frame
and leaves the connection open. -/
theorem runConnection_all_open (closes : α → Bool) (hc : ∀ a, closes a = false)
    (frames : List α) :
    runConnection closes frames = (frames.length, true) := by
  induction frames with
  | nil => rfl
  | cons f fs ih => simp [runConnection, hc f, ih]

/-- C8 (amended): in the KVS Signaling Client (part_004), an inbound frame
that fails to parse is logged and dropped and nothing else: no branch of
the message handler closes the WebSocket, so for any frame sequence every
frame is handled and the connection stays open; the continuous-mode
`/media-stream` handler instead closes its connection on a parse
failure. -/
theorem c8_kvs_parse_failures_not_fatal (frames : List (Option KVS.KvsMessage)) :
    (runConnection KVS.kvsCloses frames).1 = frames.length ∧
    (runConnection KVS.kvsCloses frames).2 = true ∧
    KVS.kvsOnMessage none = KVS.KvsAction.logParseError ∧
    KVS.kvsCloses none = false := by
  rw [runConnection_all_open KVS.kvsCloses (fun _ => rfl) frames]
  exact ⟨rfl, rfl, rfl, rfl⟩

/-- C2: any `streamAudio` before `openAudioContent` has completed fails
with `ProtocolSequenceError`, and more generally a control call succeeds
only from its designated state in the strict progression (with `close`
after `close` the one permitted no-op repeat), so every out-of-order or
skipped step fails fast rather than silently succeeding. -/
theorem c2_protocol_sequence_fails_fast :
    (∀ s : AISession.AIState, s ≠ AISession.AIState.audioContentOpen →
      AISession.step AISession.AIOp.streamAudio s
        = Except.error AISession.AIErr.protocolSequenceError) ∧
    (∀ (op : AISession.AIOp) (s s' : AISession.AIState),
      AISession.step op s = Except.ok s' →
      s = AISession.requiredState op ∨
        (op = AISession.AIOp.closeSession ∧ s = AISession.AIState.sessionClosed)) := by
  constructor
  · intro s hs
    cases s <;> first | rfl | (exact absurd rfl hs)
  · intro op s s' h
    cases op <;> cases s <;>
      simp_all [AISession.step, AISession.requiredState]

/-- C2 witness: `streamAudio` called in the `promptStarted` state — before
`openAudioContent` — raises `ProtocolSequenceError`. -/
theorem c2_protocol_sequence_fails_fast_witness :
    AISession.step AISession.AIOp.streamAudio AISession.AIState.promptStarted
      = Except.error AISession.AIErr.protocolSequenceError :=
  c2_protocol_sequence_fails_fast.1 AISession.AIState.promptStarted (by decide)
